import Mathlib

/-!
Shallow embedding of `management_dashboard/api/annual_summary.py` (the
`get_annual_summary` RPC endpoint of the alkhora-app repository) and proofs
of the specification's testable properties against it.

Modelling conventions:
* SQL table rows are association lists from column name to a `Val`
  (integer, string, or calendar date).  Monetary amounts are exact
  integers (`Int`); the spec's "within floating rounding" equalities are
  therefore exact here.
* Dates are `Ymd` triples; chronological comparison and MySQL `DATEDIFF`
  go through a day-number conversion (`Ymd.toDays`, the standard civil
  calendar algorithm).
* The generic filter dictionaries built by the Python code are modelled by
  `Filters` (list of column/condition pairs) with the SQL predicate
  semantics of the generated `WHERE` clauses; SQL `NULL` (absent field)
  compares false, as in MySQL.
* `frappe` collaborators (session, role membership, user defaults, user
  permissions, table existence) are modelled by the explicit `Ctx` and `DB`
  records.  `json.loads` (the Python standard library, external to the
  repository) is an oracle parameter `jsonLoads : String → Option (List
  String)`; `none` models a parse failure.
-/

/-- A calendar date, year/month/day. -/
structure Ymd where
  y : Int
  m : Int
  d : Int
deriving DecidableEq, Repr

/-- Day number of a civil date (days since 1970-01-01), the standard
civil-from-days algorithm; used to model MySQL date comparison and
`DATEDIFF`. -/
def Ymd.toDays (x : Ymd) : Int :=
  let y1 : Int := if x.m ≤ 2 then x.y - 1 else x.y
  let era : Int := (if 0 ≤ y1 then y1 else y1 - 399) / 400
  let yoe : Int := y1 - era * 400
  let mp : Int := (x.m + 9) % 12
  let doy : Int := (153 * mp + 2) / 5 + x.d - 1
  let doe : Int := yoe * 365 + yoe / 4 - yoe / 100 + doy
  era * 146097 + doe - 719468

/-- Civil date of a day number (inverse of `Ymd.toDays`). -/
def daysToYmd (z0 : Int) : Ymd :=
  let z : Int := z0 + 719468
  let era : Int := (if 0 ≤ z then z else z - 146096) / 146097
  let doe : Int := z - era * 146097
  let yoe : Int := (doe - doe / 1460 + doe / 36524 - doe / 146096) / 365
  let y : Int := yoe + era * 400
  let doy : Int := doe - (365 * yoe + yoe / 4 - yoe / 100)
  let mp : Int := (doy * 5 + 2) / 153
  let d : Int := doy - (153 * mp + 2) / 5 + 1
  let m : Int := if mp < 10 then mp + 3 else mp - 9
  ⟨if m ≤ 2 then y + 1 else y, m, d⟩

/-- A cell value in a table row. -/
inductive Val where
  | int : Int → Val
  | str : String → Val
  | date : Ymd → Val
deriving DecidableEq, Repr

/-- A table row: an association list column name → value.  A column absent
from the list models SQL `NULL`. -/
abbrev Row := List (String × Val)

/-- Raw lookup of a column. -/
def Row.getVal (r : Row) (f : String) : Option Val :=
  (r.find? (fun p => p.1 == f)).map (fun p => p.2)

/-- Integer value of a column, `0` when absent or non-integer (matching
`SUM` skipping `NULL`s / `COALESCE(..., 0)`). -/
def Row.getIntD (r : Row) (f : String) : Int :=
  match r.getVal f with
  | some (Val.int n) => n
  | _ => 0

/-- String value of a column, if any. -/
def Row.getStr (r : Row) (f : String) : Option String :=
  match r.getVal f with
  | some (Val.str s) => some s
  | _ => none

/-- Date value of a column, if any. -/
def Row.getDate (r : Row) (f : String) : Option Ymd :=
  match r.getVal f with
  | some (Val.date d) => some d
  | _ => none

/-- Date value of a column with the epoch as default (used only where the
source groups rows by a date expression). -/
def Row.getDateD (r : Row) (f : String) : Ymd :=
  match r.getDate f with
  | some d => d
  | none => ⟨1970, 1, 1⟩

/-- One filter condition, as built by the Python code's filter dicts:
a scalar equality, an `["in", list]`, a `["between", [lo, hi]]` date
range, or a `[">", n]` comparison. -/
inductive FilterVal where
  | eqv : Val → FilterVal
  | inList : List String → FilterVal
  | between : Ymd → Ymd → FilterVal
  | gt : Int → FilterVal
deriving DecidableEq, Repr

/-- A filter dictionary: column name paired with its condition. -/
abbrev Filters := List (String × FilterVal)

/-- Row-level semantics of one rendered condition (`NULL` compares
false).  The `between` case is the *intended* two-placeholder range
reading (`col BETWEEN %(lo)s AND %(hi)s`); the program's generic
condition builder never renders it that way — it emits
`col between %(col)s` with the list bound whole, malformed SQL — so the
query-level functions below (`sum_doctype_field`, `period_sums`) raise
before any row is ever evaluated against a `between` entry. -/
def evalCond (r : Row) (f : String) : FilterVal → Bool
  | FilterVal.eqv v =>
    match r.getVal f with
    | some w => w == v
    | none => false
  | FilterVal.inList vs =>
    match r.getStr f with
    | some s => vs.contains s
    | none => false
  | FilterVal.between lo hi =>
    match r.getDate f with
    | some d => decide (lo.toDays ≤ d.toDays ∧ d.toDays ≤ hi.toDays)
    | none => false
  | FilterVal.gt n =>
    match r.getVal f with
    | some (Val.int m) => decide (n < m)
    | _ => false

/-- Conjunction of all conditions of a filter dictionary (the generated
`WHERE` clause joins them with `AND`). -/
def rowMatches (r : Row) (filters : Filters) : Bool :=
  filters.all (fun p => evalCond r p.1 p.2)

/-- The total `SELECT COALESCE(SUM(field), 0) FROM tab WHERE filters`
computes when every condition of the filter dictionary is rendered as
valid SQL.  This is the semantics `_sum_doctype_field` has over
`between`-free filter dictionaries, and the *intended* (two-placeholder)
reading of a `["between", [lo, hi]]` entry — which the generated clause
never achieves, see `sum_doctype_field` below. -/
def sum_doctype_field_valid (rows : List Row) (field : String) (filters : Filters) : Int :=
  ((rows.filter (fun r => rowMatches r filters)).map (fun r => r.getIntD field)).sum

/-- The database error raised when `frappe.db.sql` executes a malformed
statement; it propagates uncaught out of `get_annual_summary`. -/
inductive DbError where
  | malformedQuery : DbError
deriving DecidableEq, Repr

/-- Whether the generic condition builders of `_sum_doctype_field` and
`_period_sums` render this filter entry as malformed SQL.  Only
`op == "in"` gets placeholder expansion; a `["between", [lo, hi]]` entry
falls into the generic branch and renders as `col between %(col)s` with
the two-element list bound as one parameter, which the driver
interpolates as a parenthesized tuple — `col between ('lo','hi')`, a
MySQL error whether or not further `AND` conditions follow. -/
def condRaises : FilterVal → Bool
  | FilterVal.between _ _ => true
  | _ => false

/-- Whether a filter dictionary produces a malformed `WHERE` clause. -/
def rendersMalformed (filters : Filters) : Bool :=
  filters.any (fun p => condRaises p.2)

/-- `_sum_doctype_field` as the program runs it: the query raises for
every filter dictionary containing a `["between", ...]` entry (every
period-bound KPI call site); otherwise it returns the total. -/
def sum_doctype_field (rows : List Row) (field : String) (filters : Filters) :
    Except DbError Int :=
  if rendersMalformed filters then Except.error DbError.malformedQuery
  else Except.ok (sum_doctype_field_valid rows field filters)

/-- `_build_filters`: append an `IN` condition for each non-empty
multi-select list (Python truthiness: `None` and `[]` both skip).
`item_groups` is accepted but never applied, exactly as in the source. -/
def addInFilter (fs : Filters) (field : String) (l : Option (List String)) : Filters :=
  match l with
  | some (v :: vs) => fs ++ [(field, FilterVal.inList (v :: vs))]
  | _ => fs

/-- `_build_filters` over the five dimensions actually applied. -/
def build_filters (base : Filters) (cost_centers branches projects customer_groups
    supplier_groups : Option (List String)) : Filters :=
  addInFilter (addInFilter (addInFilter (addInFilter (addInFilter base
    "cost_center" cost_centers) "branch" branches) "project" projects)
    "customer_group" customer_groups) "supplier_group" supplier_groups

/-- Optional `IN` restriction used by the hand-written aging/P&L/cash
queries (`if cost_centers:` guards: `None` and `[]` impose nothing). -/
def optInFilter (r : Row) (field : String) (l : Option (List String)) : Bool :=
  match l with
  | some (v :: vs) =>
    match r.getStr field with
    | some x => (v :: vs).contains x
    | none => false
  | _ => true

/-! ## Trend series (`_period_sums`) -/

/-- ISO-like year-week key, MySQL `YEARWEEK(d, 1)`: the week's Thursday
decides the year; encoded `isoYear * 100 + week`. -/
def isoWeekKey (x : Ymd) : Int :=
  let z : Int := x.toDays
  let thursday : Int := z - (z + 3) % 7 + 3
  let iy : Int := (daysToYmd thursday).y
  iy * 100 + (thursday - (Ymd.mk iy 1 1).toDays) / 7 + 1

/-- The `GROUP BY` / `ORDER BY` key of a date for a period type, encoded as
an integer whose order is the query's `ORDER BY ... ASC` order:
monthly `y*100+m`, quarterly `y*10+quarter`, weekly `YEARWEEK(d,1)`. -/
def periodKey (period_type : String) (x : Ymd) : Int :=
  if period_type = "quarterly" then x.y * 10 + (x.m + 2) / 3
  else if period_type = "weekly" then isoWeekKey x
  else x.y * 100 + x.m

/-- Two-digit zero padding (`LPAD(..., 2, '0')` / `%m`). -/
def pad2 (n : Int) : String :=
  if 0 ≤ n ∧ n < 10 then "0" ++ toString n else toString n

/-- The rendered period label of a group key.  Monthly `YYYY-MM-01`,
quarterly `YYYY-Qq`, weekly `YYYY-Www`.  (For weekly groups MySQL renders
the label from an arbitrary row of the group; the model renders it from
the group key.) -/
def periodLabel (period_type : String) (k : Int) : String :=
  if period_type = "quarterly" then toString (k / 10) ++ "-Q" ++ toString (k % 10)
  else if period_type = "weekly" then toString (k / 100) ++ "-W" ++ pad2 (k % 100)
  else toString (k / 100) ++ "-" ++ pad2 (k % 100) ++ "-01"

/-- One point of a trend series. -/
structure TrendPoint where
  period : String
  total : Int
deriving DecidableEq, Repr

/-- The group key of a row for a period type and date column. -/
def rowKey (period_type date_field : String) (r : Row) : Int :=
  periodKey period_type (r.getDateD date_field)

/-- The rows selected by `_period_sums` (same `WHERE` clause as
`_sum_doctype_field`). -/
def trendMatched (rows : List Row) (filters : Filters) : List Row :=
  rows.filter (fun r => rowMatches r filters)

/-- The distinct group keys in ascending (`ORDER BY ... ASC`) order. -/
def trendKeys (rows : List Row) (filters : Filters) (period_type date_field : String) :
    List Int :=
  List.insertionSort (· ≤ ·) (((trendMatched rows filters).map (rowKey period_type date_field)).dedup)

/-- The per-period grouped sums `_period_sums`'s query computes when its
`WHERE` clause is valid: one `TrendPoint` per distinct period key present
in the data, in ascending key order.  As with `sum_doctype_field_valid`,
this is the intended reading; the program's call sites never reach it,
see `period_sums` below. -/
def period_sums_valid (rows : List Row) (value_field date_field : String) (filters : Filters)
    (period_type : String) : List TrendPoint :=
  (trendKeys rows filters period_type date_field).map (fun k =>
    { period := periodLabel period_type k
      total := (((trendMatched rows filters).filter
        (fun r => decide (rowKey period_type date_field r = k))).map
          (fun r => r.getIntD value_field)).sum })

/-- `_period_sums` as the program runs it: the shared condition builder
renders a `["between", ...]` entry malformed exactly as in
`_sum_doctype_field`, so the query raises for every such filter
dictionary — which includes every filter set the program ever passes to
it — and groups otherwise. -/
def period_sums (rows : List Row) (value_field date_field : String) (filters : Filters)
    (period_type : String) : Except DbError (List TrendPoint) :=
  if rendersMalformed filters then Except.error DbError.malformedQuery
  else Except.ok (period_sums_valid rows value_field date_field filters period_type)

/-! ## P&L from the general ledger (`_pnl_from_gl`) -/

/-- `root_type` of an account name in the chart of accounts (`INNER JOIN
tabAccount acc ON acc.name = gle.account`; `name` is the primary key, so
the join is a lookup; a missing account drops the posting). -/
def accountRootType (accounts : List Row) (name : String) : Option String :=
  match accounts.find? (fun a => a.getStr "name" == some name) with
  | some a => a.getStr "root_type"
  | none => none

/-- `root_type` of the account a ledger posting is against. -/
def glRootType (accounts : List Row) (r : Row) : Option String :=
  match r.getStr "account" with
  | some a => accountRootType accounts a
  | none => none

/-- The shared `WHERE` clause of both `_pnl_from_gl` queries:
not cancelled, company, posting date in range, optional cost-center and
project restrictions. -/
def glMatches (company : String) (start_date end_date : Ymd)
    (cost_centers projects : Option (List String)) (r : Row) : Bool :=
  (r.getIntD "is_cancelled" == 0) &&
  (r.getStr "company" == some company) &&
  (match r.getDate "posting_date" with
   | some pd => decide (start_date.toDays ≤ pd.toDays ∧ pd.toDays ≤ end_date.toDays)
   | none => false) &&
  optInFilter r "cost_center" cost_centers &&
  optInFilter r "project" projects

/-- The P&L result record. -/
structure Pnl where
  income : Int
  expense : Int
  net_profit : Int
deriving DecidableEq, Repr

/-- `_pnl_from_gl`: income = Σ(credit − debit) over Income-rooted
postings, expense = Σ(debit − credit) over Expense-rooted postings,
net_profit = income − expense. -/
def pnl_from_gl (gl accounts : List Row) (company : String) (start_date end_date : Ymd)
    (cost_centers projects : Option (List String)) : Pnl :=
  let income := ((gl.filter (fun r =>
      glMatches company start_date end_date cost_centers projects r &&
      (glRootType accounts r == some "Income"))).map
    (fun r => r.getIntD "credit" - r.getIntD "debit")).sum
  let expense := ((gl.filter (fun r =>
      glMatches company start_date end_date cost_centers projects r &&
      (glRootType accounts r == some "Expense"))).map
    (fun r => r.getIntD "debit" - r.getIntD "credit")).sum
  { income := income, expense := expense, net_profit := income - expense }

/-! ## AR / AP aging (`_get_ar_aging`, `_get_ap_aging`) -/

/-- The aging result record: four staleness buckets, the overdue total and
the grand total. -/
structure Aging where
  b0_30 : Int
  b31_60 : Int
  b61_90 : Int
  b90_plus : Int
  overdue : Int
  total : Int
deriving DecidableEq, Repr

/-- The `WHERE` clause of both aging queries: submitted, company, posting
date on or before the as-of date, strictly positive outstanding amount,
plus the optional dimension restrictions. -/
def agingMatches (company : String) (end_date : Ymd)
    (cost_centers projects groups : Option (List String)) (group_field : String)
    (r : Row) : Bool :=
  (r.getIntD "docstatus" == 1) &&
  (r.getStr "company" == some company) &&
  (match r.getDate "posting_date" with
   | some pd => decide (pd.toDays ≤ end_date.toDays)
   | none => false) &&
  decide (0 < r.getIntD "outstanding_amount") &&
  optInFilter r "cost_center" cost_centers &&
  optInFilter r "project" projects &&
  optInFilter r group_field groups

/-- The aging computation shared by AR and AP: bucket sums keyed by
`DATEDIFF(end_date, posting_date)`, overdue keyed by
`DATEDIFF(end_date, due_date) > 0`, and the unconditional total. -/
def agingOf (rows : List Row) (company : String) (end_date : Ymd)
    (cost_centers projects groups : Option (List String)) (group_field : String) :
    Aging :=
  let m := rows.filter (agingMatches company end_date cost_centers projects groups group_field)
  let dd := fun (r : Row) => end_date.toDays - (r.getDateD "posting_date").toDays
  let out := fun (r : Row) => r.getIntD "outstanding_amount"
  { b0_30 := (m.map (fun r => if dd r ≤ 30 then out r else 0)).sum
    b31_60 := (m.map (fun r => if 30 < dd r ∧ dd r ≤ 60 then out r else 0)).sum
    b61_90 := (m.map (fun r => if 60 < dd r ∧ dd r ≤ 90 then out r else 0)).sum
    b90_plus := (m.map (fun r => if 90 < dd r then out r else 0)).sum
    overdue := (m.map (fun r =>
      match r.getDate "due_date" with
      | some due => if 0 < end_date.toDays - due.toDays then out r else 0
      | none => 0)).sum
    total := (m.map out).sum }

/-- `_get_ar_aging` over the Sales Invoice table. -/
def get_ar_aging (salesInvoices : List Row) (company : String) (end_date : Ymd)
    (cost_centers projects customer_groups : Option (List String)) : Aging :=
  agingOf salesInvoices company end_date cost_centers projects customer_groups "customer_group"

/-- `_get_ap_aging` over the Purchase Invoice table. -/
def get_ap_aging (purchaseInvoices : List Row) (company : String) (end_date : Ymd)
    (cost_centers projects supplier_groups : Option (List String)) : Aging :=
  agingOf purchaseInvoices company end_date cost_centers projects supplier_groups "supplier_group"

/-! ## Cash and bank balances (`_cash_bank_balances`) -/

/-- One cash/bank account balance line. -/
structure CashAccount where
  account : String
  account_name : String
  account_type : String
  balance : Int
deriving DecidableEq, Repr

/-- `_cash_bank_balances`: every non-group enabled Cash/Bank account of the
company (ordered by account name), with balance = Σ(debit − credit) of its
not-cancelled postings up to the end date; an account with no postings
yields balance 0. -/
def cash_bank_balances (accounts gl : List Row) (company : String) (end_date : Ymd)
    (cost_centers : Option (List String)) : List CashAccount :=
  let accs := List.insertionSort
    (fun a b => (a.getStr "account_name").getD "" ≤ (b.getStr "account_name").getD "")
    (accounts.filter (fun a =>
      (a.getStr "company" == some company) &&
      (a.getIntD "is_group" == 0) &&
      (match a.getStr "account_type" with
       | some t => t == "Cash" || t == "Bank"
       | none => false) &&
      (a.getIntD "disabled" == 0)))
  let names := accs.filterMap (fun a => a.getStr "name")
  accs.map (fun a =>
    let nm := (a.getStr "name").getD ""
    { account := nm
      account_name := (a.getStr "account_name").getD ""
      account_type := (a.getStr "account_type").getD ""
      balance := ((gl.filter (fun r =>
          (r.getIntD "is_cancelled" == 0) &&
          (r.getStr "company" == some company) &&
          (match r.getDate "posting_date" with
           | some pd => decide (pd.toDays ≤ end_date.toDays)
           | none => false) &&
          (match r.getStr "account" with
           | some acc => names.contains acc && acc == nm
           | none => false) &&
          optInFilter r "cost_center" cost_centers)).map
        (fun r => r.getIntD "debit" - r.getIntD "credit")).sum })

/-! ## Request-parameter parsing (`parse_list`) -/

/-- The value of a multi-select RPC parameter as received: absent (or
`None`), a raw string, or an already-decoded list. -/
inductive ParamVal where
  | pnone : ParamVal
  | pstr : String → ParamVal
  | plist : List String → ParamVal
deriving DecidableEq, Repr

/-- Python `val.startswith("[")`: the first character is `[`. -/
def startsWithBracket (s : String) : Bool :=
  match s.data with
  | c :: _ => c == '['
  | [] => false

/-- `parse_list` from `get_annual_summary`.  `jsonLoads` is the external
`json.loads` restricted to list payloads; `none` models a parse failure
(the bare `except` branch). -/
def parse_list (jsonLoads : String → Option (List String)) : ParamVal → Option (List String)
  | ParamVal.pnone => none
  | ParamVal.pstr s =>
    if s = "" then none
    else if startsWithBracket s then
      match jsonLoads s with
      | some l => some l
      | none => some [s]
    else some [s]
  | ParamVal.plist l =>
    if l = [] then none else some l

/-- Python truthiness normalisation for a parsed list at its use sites
(`if cost_centers_list:`): `None` and `[]` both impose no restriction. -/
def optNE (l : Option (List String)) : Option (List String) :=
  match l with
  | some (v :: vs) => some (v :: vs)
  | _ => none

/-! ## Session context, database and company resolution -/

/-- The caller's session and per-user configuration, as provided by the
host framework: session user (`"Guest"` when unauthenticated), role
memberships, the user's default company, and the `for_value` column of
the user's Company `User Permission` rows. -/
structure Ctx where
  user : String
  roles : List String
  userDefaultCompany : Option String
  userPermCompanies : List String
  todayYear : Int
deriving DecidableEq, Repr

/-- The external data store read by the endpoint, plus the existence flags
of the optional doctypes. -/
structure DB where
  salesInvoices : List Row
  salesOrders : List Row
  deliveryNotes : List Row
  purchaseInvoices : List Row
  glEntries : List Row
  accounts : List Row
  companies : List Row
  employees : List Row
  salarySlips : List Row
  jobOpenings : List Row
  salarySlipDoctypeExists : Bool
  jobOpeningDoctypeExists : Bool
deriving DecidableEq, Repr

/-- The spec's error taxonomy for the request-aborting failures, plus
`databaseError`: an unhandled database exception escaping the endpoint.
The spec's taxonomy has no such case — it is how the malformed
`between` rendering of the period filter actually surfaces to the
caller. -/
inductive ApiError where
  | unauthorized : ApiError
  | forbidden : ApiError
  | configurationError : ApiError
  | databaseError : ApiError
deriving DecidableEq, Repr

/-- `_get_user_companies`: the user's default company (when truthy)
followed by the user-permission companies, keeping first occurrences only
and skipping falsy values. -/
def get_user_companies (ctx : Ctx) : List String :=
  let base : List String :=
    match ctx.userDefaultCompany with
    | some c => if c = "" then [] else [c]
    | none => []
  ctx.userPermCompanies.foldl
    (fun acc v => if v ≠ "" ∧ ¬ acc.contains v then acc ++ [v] else acc) base

/-- `_get_default_company`: first permitted company, else the user default,
else the first row of the Company table. -/
def get_default_company (db : DB) (ctx : Ctx) : Option String :=
  match get_user_companies ctx with
  | c :: _ => some c
  | [] =>
    match ctx.userDefaultCompany with
    | some c => if c = "" then (db.companies.head?).bind (fun r => r.getStr "name") else some c
    | none => (db.companies.head?).bind (fun r => r.getStr "name")

/-- Lines 504-514 of `get_annual_summary`: company restriction for
non-superusers, then defaulting, then the no-company check.  An empty
string is falsy in Python at every test in this block, so it is
normalised to `none` upfront. -/
def resolveCompany (db : DB) (ctx : Ctx) (company0 : Option String) :
    Except ApiError String :=
  let company : Option String :=
    match company0 with
    | some s => if s = "" then none else some s
    | none => none
  let step1 : Except ApiError (Option String) :=
    if ctx.roles.contains "System Manager" then Except.ok company
    else
      let uc := get_user_companies ctx
      match company with
      | some c => if uc.contains c then Except.ok (some c) else Except.error ApiError.forbidden
      | none => Except.ok uc.head?
  match step1 with
  | Except.error e => Except.error e
  | Except.ok co =>
    match (match co with
           | some c => some c
           | none => get_default_company db ctx) with
    | some c => if c = "" then Except.error ApiError.configurationError else Except.ok c
    | none => Except.error ApiError.configurationError

/-! ## Report assembly (`get_annual_summary`) -/

/-- A current/previous KPI pair. -/
structure KpiPair where
  current : Int
  previous : Int
deriving DecidableEq, Repr

/-- The numeric KPI block of the response. -/
structure Kpis where
  sales_invoice_gross : KpiPair
  sales_invoice_net : KpiPair
  sales_order : KpiPair
  delivery_note : KpiPair
  paid_sales_invoice : KpiPair
  pending_sales_invoice : KpiPair
  purchases : KpiPair
  income : KpiPair
  expense : KpiPair
  net_profit : KpiPair
  ar_outstanding : Int
  ap_outstanding : Int
  cash_total : Int
deriving DecidableEq, Repr

/-- The HR counter block of the response. -/
structure Hr where
  headcount : Nat
  payroll_cost : Int
  open_positions : Nat
deriving DecidableEq, Repr

/-- The response object (the JSON dictionary returned by the endpoint). -/
structure Report where
  company : String
  company_currency : String
  presentation_currency : String
  current_year : Int
  prev_year : Int
  kpis : Kpis
  aging_ar : Aging
  aging_ap : Aging
  trends_sales : List TrendPoint
  trends_purchases : List TrendPoint
  cash_bank : List CashAccount
  new_customers : Nat
  top_overdue_customers : List (String × Int)
  top_suppliers : List (String × Int)
  hr : Hr
deriving DecidableEq, Repr

/-- The paid-invoice filter set: the full period filters plus
`outstanding_amount = 0`. -/
def paid_filters (base : Filters) : Filters :=
  base ++ [("outstanding_amount", FilterVal.eqv (Val.int 0))]

/-- The pending-invoice filter set: the full period filters plus
`outstanding_amount > 0`. -/
def pending_filters (base : Filters) : Filters :=
  base ++ [("outstanding_amount", FilterVal.gt 0)]

/-- The all-time AR/AP outstanding filter set (not period-bound). -/
def outstanding_filters (company : String)
    (cost_centers projects groups : Option (List String)) (group_field : String) :
    Filters :=
  addInFilter (addInFilter (addInFilter
    [("docstatus", FilterVal.eqv (Val.int 1)),
     ("company", FilterVal.eqv (Val.str company)),
     ("outstanding_amount", FilterVal.gt 0)]
    "cost_center" cost_centers) "project" projects) group_field groups

/-- Customer name of an invoice row (used for grouping). -/
def rowCustomer (r : Row) : Option String := r.getStr "customer"

/-- Grouped totals of a value over the distinct values of a string key
(`GROUP BY key`), in first-occurrence order; `NULL` keys are dropped as in
`COUNT(DISTINCT ...)`/`GROUP BY` rankings. -/
def groupTotals (rows : List Row) (key : Row → Option String) (val : Row → Int) :
    List (String × Int) :=
  ((rows.filterMap key).dedup).map (fun k =>
    (k, ((rows.filter (fun r => key r == some k)).map val).sum))

/-- Sort ranking lines by total descending and truncate (`ORDER BY total
DESC LIMIT 10`; tie order implementation-defined, modelled stably). -/
def topN (n : Nat) (l : List (String × Int)) : List (String × Int) :=
  (List.insertionSort (fun a b => b.2 ≤ a.2) l).take n

/-- New-customer count: customers with a submitted company invoice inside
the period and none strictly before the period start. -/
def new_customers_count (salesInvoices : List Row) (company : String)
    (start_date end_date : Ymd) : Nat :=
  let hadPrior := fun (r : Row) =>
    salesInvoices.any (fun p =>
      (p.getIntD "docstatus" == 1) &&
      (p.getStr "company" == some company) &&
      (match p.getDate "posting_date" with
       | some pd => decide (pd.toDays < start_date.toDays)
       | none => false) &&
      (rowCustomer p == rowCustomer r) && (rowCustomer p).isSome)
  let inPeriod := salesInvoices.filter (fun r =>
    (r.getIntD "docstatus" == 1) &&
    (r.getStr "company" == some company) &&
    (match r.getDate "posting_date" with
     | some pd => decide (start_date.toDays ≤ pd.toDays ∧ pd.toDays ≤ end_date.toDays)
     | none => false) &&
    !(hadPrior r))
  ((inPeriod.filterMap rowCustomer).dedup).length

/-- Top overdue customers: submitted company invoices with positive
outstanding and `due_date` before the as-of date, grouped by customer,
summed over `outstanding_amount`, top 10 by amount. -/
def top_overdue_customers_of (salesInvoices : List Row) (company : String)
    (end_date : Ymd) : List (String × Int) :=
  topN 10 (groupTotals
    (salesInvoices.filter (fun r =>
      (r.getIntD "docstatus" == 1) &&
      (r.getStr "company" == some company) &&
      decide (0 < r.getIntD "outstanding_amount") &&
      (match r.getDate "due_date" with
       | some due => decide (0 < end_date.toDays - due.toDays)
       | none => false)))
    rowCustomer (fun r => r.getIntD "outstanding_amount"))

/-- Top suppliers: submitted company purchase invoices in period, grouped
by supplier, summed over `base_grand_total`, top 10. -/
def top_suppliers_of (purchaseInvoices : List Row) (company : String)
    (start_date end_date : Ymd) : List (String × Int) :=
  topN 10 (groupTotals
    (purchaseInvoices.filter (fun r =>
      (r.getIntD "docstatus" == 1) &&
      (r.getStr "company" == some company) &&
      (match r.getDate "posting_date" with
       | some pd => decide (start_date.toDays ≤ pd.toDays ∧ pd.toDays ≤ end_date.toDays)
       | none => false)))
    (fun r => r.getStr "supplier") (fun r => r.getIntD "base_grand_total"))

/-- Company default currency, `"USD"` when the company row or the field is
missing or falsy. -/
def company_currency_of (db : DB) (company : String) : String :=
  match (db.companies.find? (fun r => r.getStr "name" == some company)).bind
      (fun r => r.getStr "default_currency") with
  | some c => if c = "" then "USD" else c
  | none => "USD"

/-- The period-bound base filter dictionary the endpoint builds
(`{"docstatus": 1, "company": company, "posting_date": ["between",
[start, end]]}`, lines 525-533).  Its `between` entry is the one the
generic condition builders render as malformed SQL. -/
def date_bounded_base (company : String) (start_date end_date : Ymd) : Filters :=
  [("docstatus", FilterVal.eqv (Val.int 1)),
   ("company", FilterVal.eqv (Val.str company)),
   ("posting_date", FilterVal.between start_date end_date)]

/-- Lines 516-767 of `get_annual_summary`: the aggregation phase for the
already-resolved company, with the queries issued in source order.  Each
`_sum_doctype_field` / `_period_sums` call can raise (malformed
`between` clause); the first raise aborts the whole phase, exactly as the
uncaught exception does in the source — so the request dies at the first
revenue query (line 561), whose filter set always carries the period
`between` entry. -/
def buildReport (jsonLoads : String → Option (List String)) (db : DB) (ctx : Ctx)
    (year : Option Int)
    (cost_centers branches projects customer_groups supplier_groups item_groups : ParamVal)
    (period_type : String) (currency : Option String) (company : String) :
    Except DbError Report := do
  let ccl := optNE (parse_list jsonLoads cost_centers)
  let brl := optNE (parse_list jsonLoads branches)
  let pjl := optNE (parse_list jsonLoads projects)
  let cgl := optNE (parse_list jsonLoads customer_groups)
  let sgl := optNE (parse_list jsonLoads supplier_groups)
  let _igl := optNE (parse_list jsonLoads item_groups)
  let current_year : Int :=
    match year with
    | some y => if y = 0 then ctx.todayYear else y
    | none => ctx.todayYear
  let prev_year := current_year - 1
  let curStart : Ymd := ⟨current_year, 1, 1⟩
  let curEnd : Ymd := ⟨current_year, 12, 31⟩
  let prevStart : Ymd := ⟨prev_year, 1, 1⟩
  let prevEnd : Ymd := ⟨prev_year, 12, 31⟩
  let cur_full := build_filters (date_bounded_base company curStart curEnd) ccl brl pjl cgl sgl
  let prev_full := build_filters (date_bounded_base company prevStart prevEnd) ccl brl pjl cgl sgl
  let company_currency := company_currency_of db company
  let presentation_currency :=
    match currency with
    | some c => if c = "" then company_currency else c
    | none => company_currency
  let sig_cur ← sum_doctype_field db.salesInvoices "grand_total" cur_full
  let sin_cur ← sum_doctype_field db.salesInvoices "base_grand_total" cur_full
  let sig_prev ← sum_doctype_field db.salesInvoices "grand_total" prev_full
  let sin_prev ← sum_doctype_field db.salesInvoices "base_grand_total" prev_full
  let so_cur ← sum_doctype_field db.salesOrders "base_grand_total" cur_full
  let so_prev ← sum_doctype_field db.salesOrders "base_grand_total" prev_full
  let dn_cur ← sum_doctype_field db.deliveryNotes "base_grand_total" cur_full
  let dn_prev ← sum_doctype_field db.deliveryNotes "base_grand_total" prev_full
  let paid_cur ← sum_doctype_field db.salesInvoices "base_grand_total" (paid_filters cur_full)
  let paid_prev ← sum_doctype_field db.salesInvoices "base_grand_total" (paid_filters prev_full)
  let pend_cur ← sum_doctype_field db.salesInvoices "base_grand_total" (pending_filters cur_full)
  let pend_prev ← sum_doctype_field db.salesInvoices "base_grand_total" (pending_filters prev_full)
  let pur_cur ← sum_doctype_field db.purchaseInvoices "base_grand_total" cur_full
  let pur_prev ← sum_doctype_field db.purchaseInvoices "base_grand_total" prev_full
  let ar_out ← sum_doctype_field db.salesInvoices "outstanding_amount"
    (outstanding_filters company ccl pjl cgl "customer_group")
  let ar_aging := get_ar_aging db.salesInvoices company curEnd ccl pjl cgl
  let ap_out ← sum_doctype_field db.purchaseInvoices "outstanding_amount"
    (outstanding_filters company ccl pjl sgl "supplier_group")
  let ap_aging := get_ap_aging db.purchaseInvoices company curEnd ccl pjl sgl
  let pnl_cur := pnl_from_gl db.glEntries db.accounts company curStart curEnd ccl pjl
  let pnl_prev := pnl_from_gl db.glEntries db.accounts company prevStart prevEnd ccl pjl
  let cash_bank := cash_bank_balances db.accounts db.glEntries company curEnd ccl
  let sales_trends ← period_sums db.salesInvoices "base_grand_total" "posting_date"
    cur_full period_type
  let purchases_trends ← period_sums db.purchaseInvoices "base_grand_total" "posting_date"
    cur_full period_type
  let payroll_cost ←
    if db.salarySlipDoctypeExists then
      sum_doctype_field db.salarySlips "base_gross_pay"
        (date_bounded_base company curStart curEnd)
    else Except.ok 0
  pure
    { company := company
      company_currency := company_currency
      presentation_currency := presentation_currency
      current_year := current_year
      prev_year := prev_year
      kpis :=
        { sales_invoice_gross := ⟨sig_cur, sig_prev⟩
          sales_invoice_net := ⟨sin_cur, sin_prev⟩
          sales_order := ⟨so_cur, so_prev⟩
          delivery_note := ⟨dn_cur, dn_prev⟩
          paid_sales_invoice := ⟨paid_cur, paid_prev⟩
          pending_sales_invoice := ⟨pend_cur, pend_prev⟩
          purchases := ⟨pur_cur, pur_prev⟩
          income := ⟨pnl_cur.income, pnl_prev.income⟩
          expense := ⟨pnl_cur.expense, pnl_prev.expense⟩
          net_profit := ⟨pnl_cur.net_profit, pnl_prev.net_profit⟩
          ar_outstanding := ar_out
          ap_outstanding := ap_out
          cash_total := (cash_bank.map (fun c => c.balance)).sum }
      aging_ar := ar_aging
      aging_ap := ap_aging
      trends_sales := sales_trends
      trends_purchases := purchases_trends
      cash_bank := cash_bank
      new_customers := new_customers_count db.salesInvoices company curStart curEnd
      top_overdue_customers := top_overdue_customers_of db.salesInvoices company curEnd
      top_suppliers := top_suppliers_of db.purchaseInvoices company curStart curEnd
      hr :=
        { headcount := (db.employees.filter (fun r =>
            (r.getStr "status" == some "Active") &&
            (r.getStr "company" == some company))).length
          payroll_cost := payroll_cost
          open_positions :=
            if db.jobOpeningDoctypeExists then
              (db.jobOpenings.filter (fun r =>
                (r.getStr "status" == some "Open") &&
                (r.getStr "company" == some company))).length
            else 0 } }

/-- `get_annual_summary`: role guard, company resolution, then the
aggregation phase.  A guard failure aborts before any aggregation; a
database error raised inside the aggregation phase propagates uncaught
(`databaseError`), so the endpoint returns a report only when every
issued query is well-formed — which the period `between` filter never
lets happen. -/
def get_annual_summary (jsonLoads : String → Option (List String)) (db : DB) (ctx : Ctx)
    (year : Option Int) (company : Option String)
    (cost_centers branches projects customer_groups supplier_groups item_groups : ParamVal)
    (period_type : String) (currency : Option String) : Except ApiError Report :=
  if ctx.user = "Guest" then Except.error ApiError.unauthorized
  else if ctx.roles.contains "Management" || ctx.roles.contains "System Manager" then
    match resolveCompany db ctx company with
    | Except.error e => Except.error e
    | Except.ok comp =>
      match buildReport jsonLoads db ctx year cost_centers branches projects
          customer_groups supplier_groups item_groups period_type currency comp with
      | Except.error _ => Except.error ApiError.databaseError
      | Except.ok rep => Except.ok rep
  else Except.error ApiError.forbidden

/-! ## The audit-log side effect (`_log_dashboard_view`) -/

/-- One audit record (`Dashboard View Log` insert). -/
structure AuditEntry where
  user : String
  year : Int
  company : String
deriving DecidableEq, Repr

/-- The mutable system state: the data store plus the optional audit-log
table (its existence flag and contents). -/
structure SysState where
  db : DB
  auditLogExists : Bool
  auditLog : List AuditEntry
deriving DecidableEq, Repr

/-- `_log_dashboard_view`: insert an audit record when the `Dashboard View
Log` doctype exists; any failure (absent table) is swallowed and nothing
is written. -/
def log_dashboard_view (st : SysState) (user : String) (year : Int) (company : String) :
    SysState :=
  if st.auditLogExists then
    { st with auditLog := st.auditLog ++ [⟨user, year, company⟩] }
  else st

/-- The whole endpoint including its only side effect: the response, and
the state after the best-effort audit write. -/
def get_annual_summary_io (jsonLoads : String → Option (List String)) (st : SysState)
    (ctx : Ctx) (year : Option Int) (company : Option String)
    (cost_centers branches projects customer_groups supplier_groups item_groups : ParamVal)
    (period_type : String) (currency : Option String) :
    Except ApiError Report × SysState :=
  match get_annual_summary jsonLoads st.db ctx year company cost_centers branches projects
      customer_groups supplier_groups item_groups period_type currency with
  | Except.error e => (Except.error e, st)
  | Except.ok rep => (Except.ok rep, log_dashboard_view st ctx.user rep.current_year rep.company)

/-! ## Helper lemmas -/

theorem sum_map_add {α : Type} (l : List α) (f g : α → Int) :
    (l.map (fun x => f x + g x)).sum = (l.map f).sum + (l.map g).sum := by
  induction l with
  | nil => simp
  | cons a t ih => simp [ih]; ring

theorem bucket_pointwise (a b : Int) :
    (if a ≤ 30 then b else 0) + ((if 30 < a ∧ a ≤ 60 then b else 0) +
      ((if 60 < a ∧ a ≤ 90 then b else 0) + (if 90 < a then b else 0))) = b := by
  split_ifs <;> omega

/-- The four aging buckets of `agingOf` partition the total exactly. -/
theorem agingOf_partition (rows : List Row) (company : String) (end_date : Ymd)
    (cost_centers projects groups : Option (List String)) (group_field : String) :
    (agingOf rows company end_date cost_centers projects groups group_field).b0_30 +
    (agingOf rows company end_date cost_centers projects groups group_field).b31_60 +
    (agingOf rows company end_date cost_centers projects groups group_field).b61_90 +
    (agingOf rows company end_date cost_centers projects groups group_field).b90_plus =
    (agingOf rows company end_date cost_centers projects groups group_field).total := by
  unfold agingOf
  simp only
  rw [add_assoc, add_assoc, ← sum_map_add, ← sum_map_add, ← sum_map_add]
  refine congrArg List.sum (List.map_congr_left ?_)
  intro r _
  exact bucket_pointwise _ _

/-! ## Claim theorems -/

/-- Claim C3: for every AR and every AP aging computation — over any data
store, company, as-of date and optional dimension filters (where every
counted invoice has `docstatus = 1`, strictly positive outstanding amount
and posting date on or before the as-of date, per `agingMatches`) — the
four bucket sums partition the total exactly:
`bucket_0_30 + bucket_31_60 + bucket_61_90 + bucket_90_plus = total`. -/
theorem C3_aging_buckets_partition_total (salesInvoices purchaseInvoices : List Row)
    (company : String) (end_date : Ymd)
    (cost_centers projects customer_groups supplier_groups : Option (List String)) :
    ((get_ar_aging salesInvoices company end_date cost_centers projects customer_groups).b0_30 +
     (get_ar_aging salesInvoices company end_date cost_centers projects customer_groups).b31_60 +
     (get_ar_aging salesInvoices company end_date cost_centers projects customer_groups).b61_90 +
     (get_ar_aging salesInvoices company end_date cost_centers projects customer_groups).b90_plus =
     (get_ar_aging salesInvoices company end_date cost_centers projects customer_groups).total) ∧
    ((get_ap_aging purchaseInvoices company end_date cost_centers projects supplier_groups).b0_30 +
     (get_ap_aging purchaseInvoices company end_date cost_centers projects supplier_groups).b31_60 +
     (get_ap_aging purchaseInvoices company end_date cost_centers projects supplier_groups).b61_90 +
     (get_ap_aging purchaseInvoices company end_date cost_centers projects supplier_groups).b90_plus =
     (get_ap_aging purchaseInvoices company end_date cost_centers projects supplier_groups).total) :=
  ⟨agingOf_partition salesInvoices company end_date cost_centers projects customer_groups
      "customer_group",
   agingOf_partition purchaseInvoices company end_date cost_centers projects supplier_groups
      "supplier_group"⟩

/-- The sales invoice of the C6 scenario: submitted, posted 2024-03-01,
outstanding 100, due 2024-02-01. -/
def c6Invoice : Row :=
  [("docstatus", Val.int 1), ("company", Val.str "C"),
   ("posting_date", Val.date ⟨2024, 3, 1⟩),
   ("outstanding_amount", Val.int 100), ("due_date", Val.date ⟨2024, 2, 1⟩)]

/-- Claim C6: for a submitted sales invoice posted 2024-03-01 with
outstanding 100 and due date 2024-02-01, the AR aging as of 2024-04-01
has 31 days elapsed since posting, so the 100 lands in `bucket_31_60`,
and (because the due date is before the as-of date) the same 100 also
appears in `overdue`: buckets and overdue are independent. -/
theorem C6_ar_aging_scenario :
    (Ymd.mk 2024 4 1).toDays - (Ymd.mk 2024 3 1).toDays = 31 ∧
    get_ar_aging [c6Invoice] "C" ⟨2024, 4, 1⟩ none none none =
      { b0_30 := 0, b31_60 := 100, b61_90 := 0, b90_plus := 0,
        overdue := 100, total := 100 } := by
  constructor
  · decide
  · decide

/-- Claim C4: the P&L is computed from general-ledger postings (excluding
cancelled entries): income is the sum of (credit − debit) over in-period
postings whose account has root type Income, expense is the sum of
(debit − credit) over postings whose account has root type Expense, and
net_profit = income − expense. -/
theorem C4_pnl_from_ledger_postings (gl accounts : List Row) (company : String)
    (start_date end_date : Ymd) (cost_centers projects : Option (List String)) :
    (pnl_from_gl gl accounts company start_date end_date cost_centers projects).income =
      (((gl.filter (glMatches company start_date end_date cost_centers projects)).filter
          (fun r => glRootType accounts r == some "Income")).map
        (fun r => r.getIntD "credit" - r.getIntD "debit")).sum ∧
    (pnl_from_gl gl accounts company start_date end_date cost_centers projects).expense =
      (((gl.filter (glMatches company start_date end_date cost_centers projects)).filter
          (fun r => glRootType accounts r == some "Expense")).map
        (fun r => r.getIntD "debit" - r.getIntD "credit")).sum ∧
    (pnl_from_gl gl accounts company start_date end_date cost_centers projects).net_profit =
      (pnl_from_gl gl accounts company start_date end_date cost_centers projects).income -
      (pnl_from_gl gl accounts company start_date end_date cost_centers projects).expense := by
  refine ⟨?_, ?_, rfl⟩ <;>
  · simp only [pnl_from_gl, List.filter_filter]
    refine congrArg List.sum (congrArg (List.map _) (List.filter_congr ?_))
    intro a _
    exact Bool.and_comm _ _

/-! ## The malformed period filter -/

theorem except_error_bind {e : Type} {a b : Type} (x : e) (f : a → Except e b) :
    (Except.error x >>= f : Except e b) = Except.error x := rfl

theorem rendersMalformed_append_right (fs gs : Filters)
    (h : rendersMalformed fs = true) : rendersMalformed (fs ++ gs) = true := by
  unfold rendersMalformed at h ⊢
  rw [List.any_append]
  simp [h]

theorem rendersMalformed_addInFilter (fs : Filters) (field : String)
    (l : Option (List String)) (h : rendersMalformed fs = true) :
    rendersMalformed (addInFilter fs field l) = true := by
  unfold addInFilter
  rcases l with _ | l2
  · exact h
  · rcases l2 with _ | ⟨v, t⟩
    · exact h
    · exact rendersMalformed_append_right fs _ h

theorem rendersMalformed_build_filters (base : Filters)
    (c1 c2 c3 c4 c5 : Option (List String)) (h : rendersMalformed base = true) :
    rendersMalformed (build_filters base c1 c2 c3 c4 c5) = true := by
  unfold build_filters
  exact rendersMalformed_addInFilter _ _ _ (rendersMalformed_addInFilter _ _ _
    (rendersMalformed_addInFilter _ _ _ (rendersMalformed_addInFilter _ _ _
      (rendersMalformed_addInFilter _ _ _ h))))

theorem rendersMalformed_date_base (company : String) (ys ye : Ymd) :
    rendersMalformed (date_bounded_base company ys ye) = true := by
  simp [rendersMalformed, date_bounded_base, condRaises]

/-- Every period-bound `_sum_doctype_field` call site raises. -/
theorem sum_doctype_field_dated_raises (rows : List Row) (f company : String)
    (ys ye : Ymd) (c1 c2 c3 c4 c5 : Option (List String)) :
    sum_doctype_field rows f (build_filters (date_bounded_base company ys ye) c1 c2 c3 c4 c5)
      = Except.error DbError.malformedQuery := by
  unfold sum_doctype_field
  simp [rendersMalformed_build_filters _ c1 c2 c3 c4 c5
    (rendersMalformed_date_base company ys ye)]

/-- The aggregation phase always dies at its first query: the revenue sum
of line 561 carries the period `between` filter. -/
theorem buildReport_always_raises (jsonLoads : String → Option (List String)) (db : DB)
    (ctx : Ctx) (year : Option Int)
    (cost_centers branches projects customer_groups supplier_groups item_groups : ParamVal)
    (period_type : String) (currency : Option String) (company : String) :
    buildReport jsonLoads db ctx year cost_centers branches projects customer_groups
      supplier_groups item_groups period_type currency company
      = Except.error DbError.malformedQuery := by
  unfold buildReport
  simp [sum_doctype_field_dated_raises, except_error_bind]

/-- Every request that passes the guards aborts with the unhandled
database error; the endpoint can never return a report. -/
theorem authorized_call_raises (jsonLoads : String → Option (List String)) (db : DB)
    (ctx : Ctx) (year : Option Int) (c : String)
    (cost_centers branches projects customer_groups supplier_groups item_groups : ParamVal)
    (period_type : String) (currency : Option String)
    (hguest : ctx.user ≠ "Guest")
    (hsm : ctx.roles.contains "System Manager" = true)
    (hcne : c ≠ "") :
    get_annual_summary jsonLoads db ctx year (some c) cost_centers branches projects
      customer_groups supplier_groups item_groups period_type currency
      = Except.error ApiError.databaseError := by
  have hsm2 : "System Manager" ∈ ctx.roles := by simpa using hsm
  have hres : resolveCompany db ctx (some c) = Except.ok c := by
    unfold resolveCompany
    simp [hsm2, hcne]
  unfold get_annual_summary
  rw [if_neg hguest]
  simp [hsm2, hres, buildReport_always_raises]

/-- The concrete store of the C10 intended-semantics counterexample: one
submitted invoice with outstanding −5 and base_grand_total 7. -/
def c10DemoRows : List Row :=
  [[("outstanding_amount", Val.int (-5)), ("base_grand_total", Val.int 7)]]

/-- Claim C10 (code bug): the paid, pending and total sales-invoice KPI
queries of lines 574-584 all carry the period `between` filter, so in
the program every one of them raises and the KPIs are never computed
(first three conjuncts).  The claim correctly describes the intent of
the filter values: under the valid row semantics a row with negative
`outstanding_amount` satisfies neither the paid condition
(`outstanding_amount = 0`) nor the pending condition (`> 0`), and on a
concrete store the paid and pending totals fail to add up to the overall
total (remaining conjuncts, stated over the `_valid` semantics the
malformed query never reaches). -/
theorem C10_kpi_queries_raise_intent_excludes_negative (rows : List Row) (f : String)
    (company : String) (ys ye : Ymd) (c1 c2 c3 c4 c5 : Option (List String))
    (base2 : Filters) (r : Row) (v : Int)
    (hv : r.getVal "outstanding_amount" = some (Val.int v)) (hneg : v < 0)
    (hbase : rowMatches r base2 = true) :
    sum_doctype_field rows f
      (paid_filters (build_filters (date_bounded_base company ys ye) c1 c2 c3 c4 c5))
      = Except.error DbError.malformedQuery ∧
    sum_doctype_field rows f
      (pending_filters (build_filters (date_bounded_base company ys ye) c1 c2 c3 c4 c5))
      = Except.error DbError.malformedQuery ∧
    sum_doctype_field rows f (build_filters (date_bounded_base company ys ye) c1 c2 c3 c4 c5)
      = Except.error DbError.malformedQuery ∧
    rowMatches r (paid_filters base2) = false ∧
    rowMatches r (pending_filters base2) = false ∧
    sum_doctype_field_valid c10DemoRows "base_grand_total" (paid_filters []) +
      sum_doctype_field_valid c10DemoRows "base_grand_total" (pending_filters []) ≠
    sum_doctype_field_valid c10DemoRows "base_grand_total" [] := by
  have hmal : rendersMalformed (build_filters (date_bounded_base company ys ye) c1 c2 c3 c4 c5)
      = true :=
    rendersMalformed_build_filters _ c1 c2 c3 c4 c5 (rendersMalformed_date_base company ys ye)
  have h1 : evalCond r "outstanding_amount" (FilterVal.eqv (Val.int 0)) = false := by
    simp [evalCond, hv]
    omega
  have h2 : evalCond r "outstanding_amount" (FilterVal.gt 0) = false := by
    simp [evalCond, hv]
    omega
  refine ⟨?_, ?_, ?_, ?_, ?_, ?_⟩
  · unfold sum_doctype_field
    simp [paid_filters, rendersMalformed_append_right _ _ hmal]
  · unfold sum_doctype_field
    simp [pending_filters, rendersMalformed_append_right _ _ hmal]
  · unfold sum_doctype_field
    simp [hmal]
  · simp [paid_filters, rowMatches, List.all_append, h1]
  · simp [pending_filters, rowMatches, List.all_append, h2]
  · decide

/-- Claim C10 witness: a concrete invoice row with outstanding −5, an
empty base filter set, and concrete period-filter parameters. -/
theorem C10_witness :
    (Row.getVal [("outstanding_amount", Val.int (-5))] "outstanding_amount" =
      some (Val.int (-5))) ∧
    ((-5 : Int) < 0) ∧
    (rowMatches [("outstanding_amount", Val.int (-5))] [] = true) ∧
    (sum_doctype_field [] "base_grand_total"
      (paid_filters (build_filters (date_bounded_base "A" ⟨2024, 1, 1⟩ ⟨2024, 12, 31⟩)
        none none none none none)) = Except.error DbError.malformedQuery ∧
     sum_doctype_field [] "base_grand_total"
      (pending_filters (build_filters (date_bounded_base "A" ⟨2024, 1, 1⟩ ⟨2024, 12, 31⟩)
        none none none none none)) = Except.error DbError.malformedQuery ∧
     sum_doctype_field [] "base_grand_total"
      (build_filters (date_bounded_base "A" ⟨2024, 1, 1⟩ ⟨2024, 12, 31⟩)
        none none none none none) = Except.error DbError.malformedQuery ∧
     rowMatches [("outstanding_amount", Val.int (-5))] (paid_filters []) = false ∧
     rowMatches [("outstanding_amount", Val.int (-5))] (pending_filters []) = false ∧
     sum_doctype_field_valid c10DemoRows "base_grand_total" (paid_filters []) +
       sum_doctype_field_valid c10DemoRows "base_grand_total" (pending_filters []) ≠
     sum_doctype_field_valid c10DemoRows "base_grand_total" []) :=
  ⟨by decide, by decide, by decide,
   C10_kpi_queries_raise_intent_excludes_negative [] "base_grand_total" "A"
     ⟨2024, 1, 1⟩ ⟨2024, 12, 31⟩ none none none none none
     [] [("outstanding_amount", Val.int (-5))] (-5)
     (by decide) (by decide) (by decide)⟩

/-- Claim C7: multi-select parameter parsing.  A string that looks
list-shaped (starts with `[`) but fails JSON parsing does not fail the
request: it degrades to the one-element list holding the raw string.
Absent and empty values normalise to `none`, a scalar string to a
one-element list, and a valid JSON list to that list. -/
theorem C7_parse_list_permissive (jsonLoads : String → Option (List String))
    (s t u : String) (lu : List String)
    (hs : startsWithBracket s = true) (hbad : jsonLoads s = none)
    (ht1 : t ≠ "") (ht2 : startsWithBracket t = false)
    (hu : startsWithBracket u = true) (hgood : jsonLoads u = some lu) :
    parse_list jsonLoads (ParamVal.pstr s) = some [s] ∧
    parse_list jsonLoads ParamVal.pnone = none ∧
    parse_list jsonLoads (ParamVal.pstr "") = none ∧
    parse_list jsonLoads (ParamVal.pstr t) = some [t] ∧
    parse_list jsonLoads (ParamVal.pstr u) = some lu := by
  have hsne : s ≠ "" := by
    intro h
    rw [h] at hs
    exact absurd hs (by decide)
  have hune : u ≠ "" := by
    intro h
    rw [h] at hu
    exact absurd hu (by decide)
  refine ⟨?_, rfl, by simp [parse_list], ?_, ?_⟩
  · simp [parse_list, hsne, hs, hbad]
  · simp [parse_list, ht1, ht2]
  · simp [parse_list, hune, hu, hgood]

/-- Claim C7 witness: concrete oracle and strings exercising every branch
of the parsing normalisation. -/
theorem C7_witness :
    (startsWithBracket "[oops" = true) ∧
    ((fun x => if x = "[\"a\"]" then some ["a"] else none) "[oops" = none) ∧
    ("CC-Main" ≠ "") ∧
    (startsWithBracket "CC-Main" = false) ∧
    (startsWithBracket "[\"a\"]" = true) ∧
    ((fun x => if x = "[\"a\"]" then some ["a"] else none) "[\"a\"]" = some ["a"]) ∧
    (parse_list (fun x => if x = "[\"a\"]" then some ["a"] else none)
        (ParamVal.pstr "[oops") = some ["[oops"] ∧
     parse_list (fun x => if x = "[\"a\"]" then some ["a"] else none) ParamVal.pnone = none ∧
     parse_list (fun x => if x = "[\"a\"]" then some ["a"] else none)
        (ParamVal.pstr "") = none ∧
     parse_list (fun x => if x = "[\"a\"]" then some ["a"] else none)
        (ParamVal.pstr "CC-Main") = some ["CC-Main"] ∧
     parse_list (fun x => if x = "[\"a\"]" then some ["a"] else none)
        (ParamVal.pstr "[\"a\"]") = some ["a"]) :=
  ⟨by decide, by decide, by decide, by decide, by decide, by decide,
   C7_parse_list_permissive (fun x => if x = "[\"a\"]" then some ["a"] else none)
     "[oops" "CC-Main" "[\"a\"]" ["a"]
     (by decide) (by decide) (by decide) (by decide) (by decide) (by decide)⟩

/-- Claim C1: an authenticated caller who is not a System Manager and
requests a company outside their permitted set (default company plus
user-permission grants, `get_user_companies`) gets `Forbidden`; the
endpoint returns the error and no report, so no aggregation is
performed. -/
theorem C1_forbidden_company (jsonLoads : String → Option (List String)) (db : DB) (ctx : Ctx)
    (year : Option Int) (c : String)
    (cost_centers branches projects customer_groups supplier_groups item_groups : ParamVal)
    (period_type : String) (currency : Option String)
    (hguest : ctx.user ≠ "Guest")
    (hsm : ctx.roles.contains "System Manager" = false)
    (hcne : c ≠ "")
    (hc : (get_user_companies ctx).contains c = false) :
    get_annual_summary jsonLoads db ctx year (some c) cost_centers branches projects
      customer_groups supplier_groups item_groups period_type currency =
    Except.error ApiError.forbidden := by
  have hsm' : ¬ ("System Manager" ∈ ctx.roles) := by simpa using hsm
  have hc' : ¬ (c ∈ get_user_companies ctx) := by simpa using hc
  have hres : resolveCompany db ctx (some c) = Except.error ApiError.forbidden := by
    unfold resolveCompany
    simp [hsm', hcne, hc']
  unfold get_annual_summary
  rw [if_neg hguest]
  by_cases hM : "Management" ∈ ctx.roles <;> simp [hsm', hM, hres]

/-- Claim C1 witness: a Management-role caller with one granted company
asking for a different company. -/
theorem C1_witness :
    ("alice" ≠ "Guest") ∧
    ((Ctx.mk "alice" ["Management"] (some "A") [] 2024).roles.contains "System Manager"
      = false) ∧
    ("B" ≠ "") ∧
    ((get_user_companies (Ctx.mk "alice" ["Management"] (some "A") [] 2024)).contains "B"
      = false) ∧
    get_annual_summary (fun _ => none)
      (DB.mk [] [] [] [] [] [] [] [] [] [] false false)
      (Ctx.mk "alice" ["Management"] (some "A") [] 2024)
      none (some "B") ParamVal.pnone ParamVal.pnone ParamVal.pnone ParamVal.pnone
      ParamVal.pnone ParamVal.pnone "monthly" none =
    Except.error ApiError.forbidden :=
  ⟨by decide, by decide, by decide, by decide,
   C1_forbidden_company (fun _ => none)
     (DB.mk [] [] [] [] [] [] [] [] [] [] false false)
     (Ctx.mk "alice" ["Management"] (some "A") [] 2024)
     none "B" ParamVal.pnone ParamVal.pnone ParamVal.pnone ParamVal.pnone
     ParamVal.pnone ParamVal.pnone "monthly" none
     (by decide) (by decide) (by decide) (by decide)⟩

/-- Claim C2: an authorised call specifying no company, where the caller
has no granted companies, no user-default company and the Company table
is empty, fails with `Configuration Error` instead of returning a
report. -/
theorem C2_no_company_configuration_error (jsonLoads : String → Option (List String))
    (db : DB) (ctx : Ctx) (year : Option Int)
    (cost_centers branches projects customer_groups supplier_groups item_groups : ParamVal)
    (period_type : String) (currency : Option String)
    (hguest : ctx.user ≠ "Guest")
    (hrole : ctx.roles.contains "Management" = true ∨
             ctx.roles.contains "System Manager" = true)
    (huc : get_user_companies ctx = [])
    (hud : ctx.userDefaultCompany = none)
    (hco : db.companies = []) :
    get_annual_summary jsonLoads db ctx year none cost_centers branches projects
      customer_groups supplier_groups item_groups period_type currency =
    Except.error ApiError.configurationError := by
  have hres : resolveCompany db ctx none = Except.error ApiError.configurationError := by
    unfold resolveCompany
    by_cases hsm : "System Manager" ∈ ctx.roles <;>
      simp [hsm, huc, get_default_company, hud, hco]
  have hcond : ("Management" ∈ ctx.roles) ∨ ("System Manager" ∈ ctx.roles) := by
    rcases hrole with h | h
    · exact Or.inl (by simpa using h)
    · exact Or.inr (by simpa using h)
  unfold get_annual_summary
  rw [if_neg hguest]
  rcases hcond with h | h <;> simp [h, hres]

/-- Claim C2 witness: a Management-role caller with no companies anywhere. -/
theorem C2_witness :
    ("bob" ≠ "Guest") ∧
    ((Ctx.mk "bob" ["Management"] none [] 2024).roles.contains "Management" = true ∨
     (Ctx.mk "bob" ["Management"] none [] 2024).roles.contains "System Manager" = true) ∧
    (get_user_companies (Ctx.mk "bob" ["Management"] none [] 2024) = []) ∧
    ((Ctx.mk "bob" ["Management"] none [] 2024).userDefaultCompany = none) ∧
    ((DB.mk [] [] [] [] [] [] [] [] [] [] false false).companies = []) ∧
    get_annual_summary (fun _ => none)
      (DB.mk [] [] [] [] [] [] [] [] [] [] false false)
      (Ctx.mk "bob" ["Management"] none [] 2024)
      none none ParamVal.pnone ParamVal.pnone ParamVal.pnone ParamVal.pnone
      ParamVal.pnone ParamVal.pnone "monthly" none =
    Except.error ApiError.configurationError :=
  ⟨by decide, Or.inl (by decide), by decide, by decide, by decide,
   C2_no_company_configuration_error (fun _ => none)
     (DB.mk [] [] [] [] [] [] [] [] [] [] false false)
     (Ctx.mk "bob" ["Management"] none [] 2024)
     none ParamVal.pnone ParamVal.pnone ParamVal.pnone ParamVal.pnone
     ParamVal.pnone ParamVal.pnone "monthly" none
     (by decide) (Or.inl (by decide)) (by decide) (by decide) (by decide)⟩

/-- Claim C8 (code bug): the claim's "overall call still succeeds" is
false.  Even with both optional doctypes absent — the scenario in which
the guarded payroll and recruiting counters would degrade to 0 — every
authorized request aborts with the unhandled database error raised by the
first revenue query (line 561), whose filter set always carries the
malformed list-bound `between` period entry.  The optional modules'
absence is never what aborts the request; the shared filter builder is. -/
theorem C8_call_aborts_before_hr_section (jsonLoads : String → Option (List String))
    (db : DB) (ctx : Ctx) (year : Option Int) (c : String)
    (cost_centers branches projects customer_groups supplier_groups item_groups : ParamVal)
    (period_type : String) (currency : Option String)
    (hguest : ctx.user ≠ "Guest")
    (hsm : ctx.roles.contains "System Manager" = true)
    (hcne : c ≠ "")
    (hsal : db.salarySlipDoctypeExists = false)
    (hjob : db.jobOpeningDoctypeExists = false) :
    get_annual_summary jsonLoads db ctx year (some c) cost_centers branches projects
      customer_groups supplier_groups item_groups period_type currency
      = Except.error ApiError.databaseError :=
  authorized_call_raises jsonLoads db ctx year c cost_centers branches projects
    customer_groups supplier_groups item_groups period_type currency hguest hsm hcne

/-- Claim C8 witness: a System Manager calling on a store with both
optional doctypes absent; the call returns the database error, not a
report. -/
theorem C8_witness :
    ("sys" ≠ "Guest") ∧
    ((Ctx.mk "sys" ["System Manager"] none [] 2024).roles.contains "System Manager" = true) ∧
    ("A" ≠ "") ∧
    ((DB.mk [] [] [] [] [] [] [] [] [] [] false false).salarySlipDoctypeExists = false) ∧
    ((DB.mk [] [] [] [] [] [] [] [] [] [] false false).jobOpeningDoctypeExists = false) ∧
    (get_annual_summary (fun _ => none)
        (DB.mk [] [] [] [] [] [] [] [] [] [] false false)
        (Ctx.mk "sys" ["System Manager"] none [] 2024)
        none (some "A") ParamVal.pnone ParamVal.pnone ParamVal.pnone ParamVal.pnone
        ParamVal.pnone ParamVal.pnone "monthly" none
      = Except.error ApiError.databaseError) :=
  ⟨by decide, by decide, by decide, by decide, by decide,
   C8_call_aborts_before_hr_section (fun _ => none)
     (DB.mk [] [] [] [] [] [] [] [] [] [] false false)
     (Ctx.mk "sys" ["System Manager"] none [] 2024)
     none "A" ParamVal.pnone ParamVal.pnone ParamVal.pnone ParamVal.pnone
     ParamVal.pnone ParamVal.pnone "monthly" none
     (by decide) (by decide) (by decide) (by decide) (by decide)⟩

/-- The response of `get_annual_summary_io` depends only on the data store,
never on the audit-log table's existence or contents. -/
theorem io_response_only_reads_db (jsonLoads : String → Option (List String))
    (st st2 : SysState) (hdb : st2.db = st.db) (ctx : Ctx) (year : Option Int)
    (company : Option String)
    (cost_centers branches projects customer_groups supplier_groups item_groups : ParamVal)
    (period_type : String) (currency : Option String) :
    (get_annual_summary_io jsonLoads st2 ctx year company cost_centers branches projects
      customer_groups supplier_groups item_groups period_type currency).1 =
    (get_annual_summary_io jsonLoads st ctx year company cost_centers branches projects
      customer_groups supplier_groups item_groups period_type currency).1 := by
  unfold get_annual_summary_io
  rw [hdb]
  rcases get_annual_summary jsonLoads st.db ctx year company cost_centers branches projects
    customer_groups supplier_groups item_groups period_type currency with e | r <;> rfl

/-- The audit write never mutates the data store. -/
theorem io_preserves_db (jsonLoads : String → Option (List String)) (st : SysState)
    (ctx : Ctx) (year : Option Int) (company : Option String)
    (cost_centers branches projects customer_groups supplier_groups item_groups : ParamVal)
    (period_type : String) (currency : Option String) :
    ((get_annual_summary_io jsonLoads st ctx year company cost_centers branches projects
      customer_groups supplier_groups item_groups period_type currency).2).db = st.db := by
  unfold get_annual_summary_io log_dashboard_view
  rcases get_annual_summary jsonLoads st.db ctx year company cost_centers branches projects
      customer_groups supplier_groups item_groups period_type currency with e | r
  · rfl
  · by_cases h : st.auditLogExists = true <;> simp [h]

/-- Claim C9 (code bug): the program never yields a response to compare.
Every authorized call returns the unhandled database error raised before
the audit write is ever reached (first conjunct), so there are no KPI
numbers; the state — audit log included — is unchanged (second
conjunct); a second identical call returns the same error (third
conjunct); and the audit-log state cannot affect that outcome (fourth
conjunct).  The claim's idempotence and audit-isolation describe the
intended behaviour of an endpoint that, as shipped, always aborts on the
malformed `between` period filter. -/
theorem C9_no_response_ever_produced (jsonLoads : String → Option (List String))
    (st st2 : SysState) (ctx : Ctx) (year : Option Int) (c : String)
    (cost_centers branches projects customer_groups supplier_groups item_groups : ParamVal)
    (period_type : String) (currency : Option String)
    (hdb : st2.db = st.db)
    (hguest : ctx.user ≠ "Guest")
    (hsm : ctx.roles.contains "System Manager" = true)
    (hcne : c ≠ "") :
    ((get_annual_summary_io jsonLoads st ctx year (some c) cost_centers branches projects
        customer_groups supplier_groups item_groups period_type currency).1
      = Except.error ApiError.databaseError) ∧
    ((get_annual_summary_io jsonLoads st ctx year (some c) cost_centers branches projects
        customer_groups supplier_groups item_groups period_type currency).2 = st) ∧
    ((get_annual_summary_io jsonLoads
        (get_annual_summary_io jsonLoads st ctx year (some c) cost_centers branches projects
          customer_groups supplier_groups item_groups period_type currency).2
        ctx year (some c) cost_centers branches projects
        customer_groups supplier_groups item_groups period_type currency).1 =
      (get_annual_summary_io jsonLoads st ctx year (some c) cost_centers branches projects
        customer_groups supplier_groups item_groups period_type currency).1) ∧
    ((get_annual_summary_io jsonLoads st2 ctx year (some c) cost_centers branches projects
        customer_groups supplier_groups item_groups period_type currency).1 =
      (get_annual_summary_io jsonLoads st ctx year (some c) cost_centers branches projects
        customer_groups supplier_groups item_groups period_type currency).1) := by
  have hmain : get_annual_summary jsonLoads st.db ctx year (some c) cost_centers branches
      projects customer_groups supplier_groups item_groups period_type currency
      = Except.error ApiError.databaseError :=
    authorized_call_raises jsonLoads st.db ctx year c cost_centers branches projects
      customer_groups supplier_groups item_groups period_type currency hguest hsm hcne
  have hmain2 : get_annual_summary jsonLoads st2.db ctx year (some c) cost_centers branches
      projects customer_groups supplier_groups item_groups period_type currency
      = Except.error ApiError.databaseError := by
    rw [hdb]
    exact hmain
  refine ⟨?_, ?_, ?_, ?_⟩ <;> simp [get_annual_summary_io, hmain, hmain2]

/-- Claim C9 witness: two states sharing a data store but with opposite
audit-table existence and different audit contents; both calls produce
the database error and no audit write. -/
theorem C9_witness :
    ((SysState.mk (DB.mk [] [] [] [] [] [] [] [] [] [] false false) false
        [AuditEntry.mk "old" 2023 "A"]).db =
      (SysState.mk (DB.mk [] [] [] [] [] [] [] [] [] [] false false) true []).db) ∧
    ("sys" ≠ "Guest") ∧
    ((Ctx.mk "sys" ["System Manager"] none [] 2024).roles.contains "System Manager" = true) ∧
    ("A" ≠ "") ∧
    (((get_annual_summary_io (fun _ => none)
        (SysState.mk (DB.mk [] [] [] [] [] [] [] [] [] [] false false) true [])
        (Ctx.mk "sys" ["System Manager"] none [] 2024)
        none (some "A") ParamVal.pnone ParamVal.pnone ParamVal.pnone ParamVal.pnone
        ParamVal.pnone ParamVal.pnone "monthly" none).1
       = Except.error ApiError.databaseError) ∧
     ((get_annual_summary_io (fun _ => none)
        (SysState.mk (DB.mk [] [] [] [] [] [] [] [] [] [] false false) true [])
        (Ctx.mk "sys" ["System Manager"] none [] 2024)
        none (some "A") ParamVal.pnone ParamVal.pnone ParamVal.pnone ParamVal.pnone
        ParamVal.pnone ParamVal.pnone "monthly" none).2
       = SysState.mk (DB.mk [] [] [] [] [] [] [] [] [] [] false false) true []) ∧
     ((get_annual_summary_io (fun _ => none)
        (get_annual_summary_io (fun _ => none)
          (SysState.mk (DB.mk [] [] [] [] [] [] [] [] [] [] false false) true [])
          (Ctx.mk "sys" ["System Manager"] none [] 2024)
          none (some "A") ParamVal.pnone ParamVal.pnone ParamVal.pnone ParamVal.pnone
          ParamVal.pnone ParamVal.pnone "monthly" none).2
        (Ctx.mk "sys" ["System Manager"] none [] 2024)
        none (some "A") ParamVal.pnone ParamVal.pnone ParamVal.pnone ParamVal.pnone
        ParamVal.pnone ParamVal.pnone "monthly" none).1 =
      (get_annual_summary_io (fun _ => none)
        (SysState.mk (DB.mk [] [] [] [] [] [] [] [] [] [] false false) true [])
        (Ctx.mk "sys" ["System Manager"] none [] 2024)
        none (some "A") ParamVal.pnone ParamVal.pnone ParamVal.pnone ParamVal.pnone
        ParamVal.pnone ParamVal.pnone "monthly" none).1) ∧
     ((get_annual_summary_io (fun _ => none)
        (SysState.mk (DB.mk [] [] [] [] [] [] [] [] [] [] false false) false
          [AuditEntry.mk "old" 2023 "A"])
        (Ctx.mk "sys" ["System Manager"] none [] 2024)
        none (some "A") ParamVal.pnone ParamVal.pnone ParamVal.pnone ParamVal.pnone
        ParamVal.pnone ParamVal.pnone "monthly" none).1 =
      (get_annual_summary_io (fun _ => none)
        (SysState.mk (DB.mk [] [] [] [] [] [] [] [] [] [] false false) true [])
        (Ctx.mk "sys" ["System Manager"] none [] 2024)
        none (some "A") ParamVal.pnone ParamVal.pnone ParamVal.pnone ParamVal.pnone
        ParamVal.pnone ParamVal.pnone "monthly" none).1)) :=
  ⟨rfl, by decide, by decide, by decide,
   C9_no_response_ever_produced (fun _ => none)
     (SysState.mk (DB.mk [] [] [] [] [] [] [] [] [] [] false false) true [])
     (SysState.mk (DB.mk [] [] [] [] [] [] [] [] [] [] false false) false
       [AuditEntry.mk "old" 2023 "A"])
     (Ctx.mk "sys" ["System Manager"] none [] 2024)
     none "A" ParamVal.pnone ParamVal.pnone ParamVal.pnone ParamVal.pnone
     ParamVal.pnone ParamVal.pnone "monthly" none
     rfl (by decide) (by decide) (by decide)⟩

/-! ## Grouping lemmas for the trend series -/

theorem sum_ite_zero_of_not_mem {κ : Type} [DecidableEq κ] (a : κ) (v : Int) :
    ∀ (ks : List κ), a ∉ ks → (ks.map (fun k => if a = k then v else 0)).sum = 0 := by
  intro ks
  induction ks with
  | nil => simp
  | cons k t ih =>
    intro h
    have h1 : a ≠ k := fun he => h (by simp [he])
    have h2 : a ∉ t := fun ht => h (by simp [ht])
    simp [h1, ih h2]

theorem sum_ite_single {κ : Type} [DecidableEq κ] (a : κ) (v : Int) :
    ∀ (ks : List κ), ks.Nodup → a ∈ ks →
    (ks.map (fun k => if a = k then v else 0)).sum = v := by
  intro ks
  induction ks with
  | nil => intro _ h; cases h
  | cons k t ih =>
    intro hn hm
    rcases List.mem_cons.mp hm with he | ht
    · subst he
      have hnt : a ∉ t := (List.nodup_cons.mp hn).1
      simp [sum_ite_zero_of_not_mem a v t hnt]
    · have h1 : a ≠ k := by
        intro he
        subst he
        exact (List.nodup_cons.mp hn).1 ht
      simp [h1, ih (List.nodup_cons.mp hn).2 ht]

/-- Summing group-by-group over a duplicate-free key list covering every
row gives the ungrouped sum. -/
theorem sum_fiberwise {α κ : Type} [DecidableEq κ] (key : α → κ) (val : α → Int) :
    ∀ (l : List α) (ks : List κ), ks.Nodup → (∀ r ∈ l, key r ∈ ks) →
    (ks.map (fun k => ((l.filter (fun r => decide (key r = k))).map val).sum)).sum
      = (l.map val).sum := by
  intro l
  induction l with
  | nil =>
    intro ks _ _
    simp
  | cons a t ih =>
    intro ks hn hcov
    have hmem : key a ∈ ks := hcov a (by simp)
    have hcovt : ∀ r ∈ t, key r ∈ ks := fun r hr => hcov r (by simp [hr])
    have hstep : ∀ k : κ,
        (((a :: t).filter (fun r => decide (key r = k))).map val).sum
          = (if key a = k then val a else 0) +
            ((t.filter (fun r => decide (key r = k))).map val).sum := by
      intro k
      by_cases h : key a = k
      · simp [List.filter_cons, h]
      · simp [List.filter_cons, h]
    calc (ks.map fun k => (((a :: t).filter (fun r => decide (key r = k))).map val).sum).sum
        = (ks.map fun k => (if key a = k then val a else 0) +
            ((t.filter (fun r => decide (key r = k))).map val).sum).sum :=
          congrArg List.sum (List.map_congr_left (fun k _ => hstep k))
      _ = (ks.map fun k => if key a = k then val a else 0).sum +
            (ks.map fun k => ((t.filter (fun r => decide (key r = k))).map val).sum).sum :=
          sum_map_add ks _ _
      _ = val a + (t.map val).sum := by
          rw [sum_ite_single (key a) (val a) ks hn hmem, ih ks hn hcovt]
      _ = ((a :: t).map val).sum := by simp

theorem pairwise_lt_of_sorted_nodup :
    ∀ (l : List Int), l.Pairwise (· ≤ ·) → l.Nodup → l.Pairwise (· < ·) := by
  intro l
  induction l with
  | nil =>
    intro _ _
    exact List.Pairwise.nil
  | cons a t ih =>
    intro hs hn
    rcases List.pairwise_cons.mp hs with ⟨hle, hs2⟩
    rcases List.nodup_cons.mp hn with ⟨hm, hn2⟩
    refine List.pairwise_cons.mpr ⟨?_, ih hs2 hn2⟩
    intro b hb
    exact lt_of_le_of_ne (hle b hb) (fun he => hm (he ▸ hb))

/-- Claim C5 (code bug): `_period_sums` is only ever invoked with the
period-bound filter set, whose `between` entry renders malformed SQL, so
in the program both the trend query and the companion ungrouped total
raise and no trend series is ever produced (first two conjuncts).  The
claim correctly describes the intended grouping semantics of the query:
under a valid rendering the per-period totals sum to the ungrouped total
for the same filters and field, the emitted group keys are strictly
ascending (ascending period order), and a key is emitted only when some
matching row falls in that period (remaining conjuncts, stated over the
`_valid` semantics). -/
theorem C5_trend_queries_raise_grouping_is_intent (rows : List Row)
    (value_field date_field period_type company : String) (ys ye : Ymd)
    (c1 c2 c3 c4 c5 : Option (List String)) (filters2 : Filters) :
    period_sums rows value_field date_field
      (build_filters (date_bounded_base company ys ye) c1 c2 c3 c4 c5) period_type
      = Except.error DbError.malformedQuery ∧
    sum_doctype_field rows value_field
      (build_filters (date_bounded_base company ys ye) c1 c2 c3 c4 c5)
      = Except.error DbError.malformedQuery ∧
    ((period_sums_valid rows value_field date_field filters2 period_type).map
        TrendPoint.total).sum = sum_doctype_field_valid rows value_field filters2 ∧
    (trendKeys rows filters2 period_type date_field).Pairwise (· < ·) ∧
    (∀ k ∈ trendKeys rows filters2 period_type date_field,
      ∃ r ∈ trendMatched rows filters2, rowKey period_type date_field r = k) := by
  have hnd : (trendKeys rows filters2 period_type date_field).Nodup :=
    ((List.perm_insertionSort (· ≤ ·) _).symm).nodup (List.nodup_dedup _)
  have hcov : ∀ r ∈ trendMatched rows filters2,
      rowKey period_type date_field r ∈ trendKeys rows filters2 period_type date_field := by
    intro r hr
    unfold trendKeys
    rw [List.mem_insertionSort, List.mem_dedup]
    exact List.mem_map_of_mem _ hr
  have hmal : rendersMalformed (build_filters (date_bounded_base company ys ye) c1 c2 c3 c4 c5)
      = true :=
    rendersMalformed_build_filters _ c1 c2 c3 c4 c5 (rendersMalformed_date_base company ys ye)
  refine ⟨?_, ?_, ?_, ?_, ?_⟩
  · unfold period_sums
    simp [hmal]
  · unfold sum_doctype_field
    simp [hmal]
  · unfold period_sums_valid
    rw [List.map_map]
    exact sum_fiberwise (rowKey period_type date_field) (fun r => r.getIntD value_field)
      (trendMatched rows filters2) (trendKeys rows filters2 period_type date_field) hnd hcov
  · exact pairwise_lt_of_sorted_nodup _ (List.sorted_insertionSort (· ≤ ·) _) hnd
  · intro k hk
    unfold trendKeys at hk
    rw [List.mem_insertionSort, List.mem_dedup] at hk
    rcases List.mem_map.mp hk with ⟨r, hr, he⟩
    exact ⟨r, hr, he⟩
